import Mathlib

/-!
Shallow embedding of the MoviePilot plugin `MediaServerMsgTest`
(`plugins.v2/mediaservermsgtest/__init__.py`), a webhook notification relay
for Emby/Jellyfin/Plex media servers.

Modelling conventions:
* Python optional attributes become `Option` fields; Python truthiness of a
  string (`None` and `""` are falsy) is `truthyStr`, of an optional int
  (`None` and `0` are falsy) is via `pyTruthyInt`.
* Python string interpolation of a possibly-`None` value prints `"None"`,
  captured by `pyStr`.
* `time.time()` is modelled as a `Nat` number of seconds carried in the
  environment (`Env.now`); the float subsecond part is irrelevant to the
  dedup logic, which only compares insertion+600 against the current time.
* The process-wide mutable dict `_webhook_msg_keys` is an association list
  threaded through `send` explicitly.
* External collaborators (server directory, play-URL resolution, image
  lookup, geolocation, local clock, float formatting of the playback
  percentage, and the `curl` subprocess) are opaque oracles in `Env`.
  The `curl` subprocess may terminate with a result or raise one of the
  exception classes handled by the source's `try/except` arms, modelled by
  `Except CurlError`.
* Outward interactions (running curl, the notification `post_message`, the
  `chain.obtain_specific_image` call, log lines) are recorded as an explicit
  `Effect` list returned by the functions that perform them.
-/

namespace MediaServerMsgTest

/-- Python truthiness of an optional string: `None` and `""` are falsy. -/
def truthyStr : Option String → Bool
  | none => false
  | some s => s != ""

/-- Python truthiness of an optional dict rendered as an optional list of its
keys: `None` and the empty dict are falsy. -/
def truthyList : Option (List String) → Bool
  | some (_ :: _) => true
  | _ => false

/-- Python f-string rendering of a possibly absent value: `None` prints as
the four characters `None`. -/
def pyStr : Option String → String
  | none => "None"
  | some s => s

/-- Python `x if x else None` on an optional int (`0` and `None` are falsy). -/
def pyTruthyInt : Option Int → Option Int
  | none => none
  | some n => if n = 0 then none else some n

/-- Python `pat in s` substring containment on character lists. -/
def charsInfixOf (pat : List Char) : List Char → Bool
  | [] => pat.isEmpty
  | c :: t => pat.isPrefixOf (c :: t) || charsInfixOf pat t

/-- Python `pat in s` substring containment on strings (not prefix-anchored). -/
def pyIn (pat s : String) : Bool :=
  charsInfixOf pat.data s.data

/-- Python `s.endswith(suffix)`. -/
def strEndsWith (s suffix : String) : Bool :=
  suffix.data.isSuffixOf s.data

/-- Python `s.split("|")` (the source only ever splits on the single
character `"|"`). -/
def splitOnPipeAux : List Char → List Char → List String
  | [], acc => [String.mk acc.reverse]
  | c :: t, acc =>
    if c = '|' then String.mk acc.reverse :: splitOnPipeAux t []
    else splitOnPipeAux t (c :: acc)

/-- Python `s.split("|")`. -/
def splitOnPipe (s : String) : List String :=
  splitOnPipeAux s.data []

/-- `os.path.dirname` for POSIX paths: everything up to the last `/`, with
trailing slashes stripped unless the head is all slashes. -/
def dirname (p : String) : String :=
  let headRev := (p.data.reverse).dropWhile (fun c => c != '/')
  let head := headRev.reverse
  let head :=
    if head.isEmpty = false && head.any (fun c => c != '/') then
      (head.reverse.dropWhile (fun c => c = '/')).reverse
    else head
  String.mk head

/-! ## Data model -/

/-- The fields of `app.schemas.WebhookEventInfo` used by the plugin.
Numeric ids (`tmdb_id`, `season_id`, `episode_id`) are `Option Int`; the
playback percentage is a float in Python, modelled as an `Option Rat`
(only its truthiness and its externally formatted rendering matter). -/
structure WebhookEventInfo where
  event : String
  item_id : Option String := none
  item_name : Option String := none
  item_type : Option String := none
  item_path : Option String := none
  server_name : Option String := none
  channel : Option String := none
  client : Option String := none
  user_name : Option String := none
  device_name : Option String := none
  ip : Option String := none
  percentage : Option Rat := none
  overview : Option String := none
  image_url : Option String := none
  tmdb_id : Option Int := none
  season_id : Option Int := none
  episode_id : Option Int := none
  deriving DecidableEq

/-- The plugin configuration read in `init_plugin`. -/
structure Config where
  enabled : Bool := false
  types : List String := []
  mediaservers : List String := []
  add_play_link : Bool := false
  deriving DecidableEq

/-- `app.schemas.types.MediaType` (the constructors the plugin can mention). -/
inductive MediaType where
  | MOVIE
  | TV
  deriving DecidableEq

/-- `app.schemas.types.MediaImageType` (the constructors the plugin can
mention). -/
inductive MediaImageType where
  | Poster
  | Backdrop
  deriving DecidableEq

/-- The argument record of a `chain.obtain_specific_image` call. -/
structure ImageRequest where
  mediaid : Int
  mtype : MediaType
  image_type : MediaImageType
  season : Option Int
  episode : Option Int
  deriving DecidableEq

/-- One element of the JSON command batch posted to the rescan API.
`scopeArgs` is `none` when the Python dict has no `args` key. -/
structure JsonAction where
  action : String
  scopeName : String
  scopeArgs : Option (List String)
  deriving DecidableEq

/-- The rescan HTTP invocation assembled in `_execute_curl_command`. -/
structure CurlRequest where
  url : String
  jsonData : List JsonAction
  apiKey : String
  deriving DecidableEq

/-- The exception classes caught by the `try/except` arms of
`_execute_curl_command`: `subprocess.TimeoutExpired`, `FileNotFoundError`,
and the catch-all `Exception`. -/
inductive CurlError where
  | timeoutExpired
  | fileNotFound
  | other (msg : String)
  deriving DecidableEq

/-- An externally observable interaction performed by the relay. -/
inductive Effect where
  | logInfo (msg : String)
  | logWarn (msg : String)
  | logError (msg : String)
  | runCurl (req : CurlRequest)
  | obtainImage (req : ImageRequest)
  | postMessage (title text : String) (image link : Option String)
  deriving DecidableEq

/-- The opaque external collaborators, per §1 of the design: the server
directory, play-URL capability, metadata image lookup, geolocation, the
local clock, float formatting, and the curl subprocess. -/
structure Env where
  now : Nat
  service_infos : Option String → Option (List String)
  get_services : Option String → List String
  get_play_url : String → Option String → Option String
  obtain_specific_image : ImageRequest → Option String
  get_location : String → String
  local_time_str : String
  format_percentage : Rat → String
  run_curl : CurlRequest → Except CurlError (Int × String × String)

/-! ## Static tables -/

/-- `_webhook_actions`: recognized event kinds and their labels. -/
def webhook_actions : List (String × String) :=
  [ ("library.new", "新入库"),
    ("system.webhooktest", "测试"),
    ("playback.start", "开始播放"),
    ("playback.stop", "停止播放"),
    ("user.authenticated", "登录成功"),
    ("user.authenticationfailed", "登录失败"),
    ("media.play", "开始播放"),
    ("media.stop", "停止播放"),
    ("PlaybackStart", "开始播放"),
    ("PlaybackStop", "停止播放"),
    ("item.rate", "标记了") ]

/-- `_path_mapping`: the ordered path-pattern table. -/
def path_mapping : List (List String × Int) :=
  [ (["/media/Movie/Episode/Donghua", "/media/Show/Episode/Donghua"], 0),
    (["/media/Movie/Episode/Anime", "/media/Show/Episode/Anime"], 1),
    (["/media/Movie/Episode/Animation", "/media/Show/Episode/Animation"], 2),
    (["/media/Movie/Documentary", "/media/Show/Documentary"], 3),
    (["/media/Movie/Series/SeriesRU", "/media/Show/Series/SeriesRU"], 4),
    (["/media/Movie/Series/SeriesCN", "/media/Show/Series/SeriesCN"], 5),
    (["/media/Movie/Series/SeriesKO", "/media/Show/Series/SeriesKO"], 6),
    (["/media/Movie/Series/SeriesJP", "/media/Show/Series/SeriesJP"], 7),
    (["/media/Movie/Series/SeriesIN", "/media/Show/Series/SeriesUS"], 8),
    (["/media/Movie/Series/SeriesUS", "/media/Show/Zongyi/ZongyiCN"], 9),
    (["/media/Movie/Series/NSFW", "/media/Show/Zongyi/ZongyiKO"], 10),
    (["/media/Show/Zongyi/ZongyiUS"], 11),
    (["/media/Show/Episode/NSFW"], 12) ]

/-- `_webhook_images`: per-server default icon URLs. -/
def webhook_images : List (String × String) :=
  [ ("emby", "https://emby.media/notificationicon.png"),
    ("plex", "https://www.plex.tv/wp-content/uploads/2022/04/new-logo-process-lines-gray.png"),
    ("jellyfin", "https://play-lh.googleusercontent.com/SCsUK3hCCRqkJbmLDctNYCfehLxsS4ggD1ZPHIFrrAN1Tn9yhjmGMPep2D9lMaaa9eQi") ]

/-! ## Deduplication set (`_webhook_msg_keys`) -/

/-- The plugin's `_webhook_msg_keys` dict: key to expiry timestamp. -/
abbrev Dedup := List (String × Nat)

/-- Python dict assignment `d[k] = v`: overwrite in place if present,
append otherwise. -/
def dictInsert (d : Dedup) (k : String) (v : Nat) : Dedup :=
  if (List.lookup k d).isSome then
    d.map fun kv => if kv.1 = k then (k, v) else kv
  else d ++ [(k, v)]

/-- `__add_element`: insert or refresh a key with expiry `now + 600`. -/
def add_element (d : Dedup) (now : Nat) (key : String) : Dedup :=
  dictInsert d key (now + 600)

/-- `__remove_element`: rebuild the dict without the given key. -/
def remove_element (d : Dedup) (key : String) : Dedup :=
  d.filter fun kv => kv.1 != key

/-- `__get_elements`: purge expired entries (`v > current_time` kept) and
return the purged dict together with the remaining keys. Defined in the
source but never invoked by `send`. -/
def get_elements (d : Dedup) (now : Nat) : Dedup × List String :=
  let d' := d.filter fun kv => decide (now < kv.2)
  (d', d'.map (·.1))

/-- The dedup key `f"{item_id}-{client}-{user_name}"` built in `send`. -/
def expiring_key (ei : WebhookEventInfo) : String :=
  pyStr ei.item_id ++ "-" ++ pyStr ei.client ++ "-" ++ pyStr ei.user_name

/-! ## Path category resolver -/

/-- The loop of `_get_variable_one_from_path` over the ordered table. -/
def firstPathMatch : List (List String × Int) → String → Option Int
  | [], _ => none
  | (pats, v) :: rest, p =>
    if pats.any (fun pat => pyIn pat p) then some v else firstPathMatch rest p

/-- `_get_variable_one_from_path`: first-match-in-order category lookup,
`none` on an empty path or when nothing matches. -/
def get_variable_one_from_path (media_path : String) : Option Int :=
  if media_path = "" then none
  else firstPathMatch path_mapping media_path

/-- Modelled from the spec: `resolveCategory(path)` iterates the static
ordered table; for each entry, iterates its pattern strings; returns the
first category id whose string is a substring of the path; `none` when no
pattern matches. Stated for comparison with the source translation
`get_variable_one_from_path`. -/
def resolveCategory (path : String) : Option Int :=
  (path_mapping.find? fun e => e.1.any fun pat => pyIn pat path).map Prod.snd

/-! ## External rescan trigger (`_execute_curl_command`) -/

/-- Variable two of `_execute_curl_command`: the parent directory of the
media path for `.strm` streaming links, else the empty string. -/
def variable_two_of (media_path : String) : String :=
  if strEndsWith media_path ".strm" then dirname media_path else ""

/-- The fixed API key baked into `_execute_curl_command`. -/
def tmm_api_key : String := "b23e06b9-8dbb-47cd-858e-72bde40fb3c6"

/-- The three-step JSON command batch of `_execute_curl_command`. -/
def mkJsonData (variable_one : Int) (variable_two : String) : List JsonAction :=
  [ { action := "update", scopeName := "single", scopeArgs := some [toString variable_one] },
    { action := "scrape", scopeName := "new", scopeArgs := none },
    { action := "downloadMissingArtwork", scopeName := "dataSource", scopeArgs := some [variable_two] } ]

/-- The message of the `.strm` check log line (source lines 394-399). -/
def strmMsg (media_path : String) : String :=
  if strEndsWith media_path ".strm" then
    "检测到.strm文件，变量二设置为: " ++ variable_two_of media_path
  else "非.strm文件，变量二保持为空"

/-- The log line for the `.strm` check (source lines 394-399). -/
def strmLogOf (media_path : String) : Effect :=
  Effect.logInfo (strmMsg media_path)

/-- The log lines emitted by the `try` body after the outcome of
`subprocess.run`, and the `except` arms; every outcome is handled and the
function returns normally. -/
def curlResultLogs (outcome : Except CurlError (Int × String × String)) : List Effect :=
  match outcome with
  | Except.ok (returncode, stdout, stderr) =>
    if returncode = 0 then
      [Effect.logInfo "curl命令执行成功"] ++
        (if stdout != "" then [Effect.logInfo ("curl响应: " ++ stdout)] else [])
    else
      [Effect.logError ("curl命令执行失败，返回码: " ++ toString returncode)] ++
        (if stderr != "" then [Effect.logError ("curl错误信息: " ++ stderr)] else [])
  | Except.error CurlError.timeoutExpired =>
    [Effect.logError "curl命令执行超时（30秒）"]
  | Except.error CurlError.fileNotFound =>
    [Effect.logError "未找到curl命令，请确保系统已安装curl"]
  | Except.error (CurlError.other msg) =>
    [Effect.logError ("执行curl命令时发生错误: " ++ msg)]

/-- `_execute_curl_command`: derive the three variables, build the curl
invocation, run it, and log the outcome. Aborts with a warning when the
path is missing, the category is unresolvable, or the item type is not
`MOV`/`TV`/`SHOW`. The surrounding `try/except` catches timeouts, a
missing curl binary, and any other exception, so the function is total. -/
def execute_curl_command (env : Env) (ei : WebhookEventInfo) : List Effect :=
  match ei.item_path with
  | none => [Effect.logWarn "无法获取媒体文件路径，跳过curl命令执行"]
  | some media_path =>
    if media_path = "" then [Effect.logWarn "无法获取媒体文件路径，跳过curl命令执行"]
    else
      match get_variable_one_from_path media_path with
      | none =>
        [Effect.logWarn ("无法从路径 " ++ media_path ++ " 确定变量一，跳过curl命令执行")]
      | some variable_one =>
        let variable_two := variable_two_of media_path
        let strmLog := strmLogOf media_path
        let variableThreeOpt : Option String :=
          if ei.item_type = some "MOV" then some "movies"
          else if ei.item_type = some "TV" ∨ ei.item_type = some "SHOW" then some "tvshows"
          else none
        match variableThreeOpt with
        | none =>
          [strmLog,
           Effect.logWarn ("未识别的媒体类型: " ++ pyStr ei.item_type ++ "，跳过curl命令执行")]
        | some variable_three =>
          let api_url := "http://localhost:7878/api/" ++ variable_three
          let req : CurlRequest :=
            { url := api_url, jsonData := mkJsonData variable_one variable_two,
              apiKey := tmm_api_key }
          [strmLog,
           Effect.logInfo "执行curl命令处理新入库事件:",
           Effect.logInfo ("  媒体路径: " ++ media_path ++ " -> 变量一: " ++ toString variable_one),
           Effect.logInfo ("  .strm检查: " ++ media_path ++ " -> 变量二: " ++ variable_two),
           Effect.logInfo ("  媒体类型: " ++ pyStr ei.item_type ++ " -> 变量三: " ++ variable_three),
           Effect.logInfo ("  API URL: " ++ api_url),
           Effect.runCurl req] ++ curlResultLogs (env.run_curl req)

/-- The curl invocations among a list of effects. -/
def curlRequests (effs : List Effect) : List CurlRequest :=
  effs.filterMap fun e =>
    match e with
    | Effect.runCurl r => some r
    | _ => none

/-! ## Notification composition -/

/-- The message title built in `send` from the action label and item type. -/
def mkTitle (ei : WebhookEventInfo) : String :=
  if ei.item_type = some "TV" ∨ ei.item_type = some "SHOW" then
    pyStr (List.lookup ei.event webhook_actions) ++ "剧集 " ++ pyStr ei.item_name
  else if ei.item_type = some "MOV" then
    pyStr (List.lookup ei.event webhook_actions) ++ "电影 " ++ pyStr ei.item_name
  else if ei.item_type = some "AUD" then
    pyStr (List.lookup ei.event webhook_actions) ++ "有声书 " ++ pyStr ei.item_name
  else pyStr (List.lookup ei.event webhook_actions)

/-- The message body built in `send`: present-only lines joined by
newlines, ending with the current local time. -/
def mkContent (env : Env) (ei : WebhookEventInfo) : String :=
  let ts : List String := []
  let ts := if truthyStr ei.user_name then ts ++ ["用户：" ++ ei.user_name.getD ""] else ts
  let ts :=
    if truthyStr ei.device_name then
      ts ++ ["设备：" ++ pyStr ei.client ++ " " ++ ei.device_name.getD ""]
    else ts
  let ts :=
    if truthyStr ei.ip then
      ts ++ ["IP地址：" ++ ei.ip.getD "" ++ " " ++ env.get_location (ei.ip.getD "")]
    else ts
  let ts :=
    match ei.percentage with
    | some q => if q = 0 then ts else ts ++ ["进度：" ++ env.format_percentage q ++ "%"]
    | none => ts
  let ts := if truthyStr ei.overview then ts ++ ["剧情：" ++ ei.overview.getD ""] else ts
  let ts := ts ++ ["时间：" ++ env.local_time_str]
  String.intercalate "\n" ts

/-- The image resolution of `send` (source lines 578-601): start from the
event image, let a successful TMDB backdrop lookup override it, and fall
back to the per-server icon when still falsy. Returns the resolved image
and the `obtain_specific_image` request when one was issued. -/
def resolveImage (env : Env) (ei : WebhookEventInfo) : Option String × Option ImageRequest :=
  let image_url := ei.image_url
  let fallback := fun (u : Option String) =>
    if truthyStr u = false then
      match ei.channel with
      | some c => List.lookup c webhook_images
      | none => none
    else u
  match ei.tmdb_id with
  | some tmdb =>
    if tmdb = 0 then (fallback image_url, none)
    else
      let req : ImageRequest :=
        { mediaid := tmdb, mtype := MediaType.TV, image_type := MediaImageType.Backdrop,
          season := pyTruthyInt ei.season_id, episode := pyTruthyInt ei.episode_id }
      let specific_image := env.obtain_specific_image req
      let image_url := if truthyStr specific_image then specific_image else image_url
      (fallback image_url, some req)
  | none => (fallback image_url, none)

/-- Modelled from the spec's image-resolution order as amended: (a) the
TMDB backdrop when a TMDB id is present and the lookup returns a truthy
image — this overrides any event-supplied url; (b) otherwise the
event-supplied image url when truthy; (c) otherwise the static
per-server-type icon, which may be absent. -/
def resolveImageAmendedSpec (env : Env) (ei : WebhookEventInfo) : Option String :=
  let tmdbImage : Option String :=
    match ei.tmdb_id with
    | some tmdb =>
      if tmdb = 0 then none
      else
        let s := env.obtain_specific_image
          { mediaid := tmdb, mtype := MediaType.TV, image_type := MediaImageType.Backdrop,
            season := pyTruthyInt ei.season_id, episode := pyTruthyInt ei.episode_id }
        if truthyStr s then s else none
    | none => none
  match tmdbImage with
  | some i => some i
  | none =>
    if truthyStr ei.image_url then ei.image_url
    else
      match ei.channel with
      | some c => List.lookup c webhook_images
      | none => none

/-- The `obtain_specific_image` interaction recorded as an effect. -/
def imageEffects (env : Env) (ei : WebhookEventInfo) : List Effect :=
  match (resolveImage env ei).2 with
  | some r => [Effect.obtainImage r]
  | none => []

/-- The channel-branch loop of the play-link resolution: try each server in
order, keep the first truthy link, otherwise the last computed value. -/
def firstTruthyPlayLink (env : Env) (names : List String) (item_id : Option String) :
    Option String :=
  match names with
  | [] => none
  | [n] => env.get_play_url n item_id
  | n :: rest =>
    let l := env.get_play_url n item_id
    if truthyStr l then l else firstTruthyPlayLink env rest item_id

/-- The play-link resolution of `send` (source lines 603-620). -/
def resolvePlayLink (cfg : Config) (env : Env) (ei : WebhookEventInfo) : Option String :=
  if cfg.add_play_link = false then none
  else if truthyStr ei.server_name then
    if ((env.service_infos none).getD []).contains (ei.server_name.getD "") then
      env.get_play_url (ei.server_name.getD "") ei.item_id
    else none
  else if truthyStr ei.channel then
    firstTruthyPlayLink env (env.get_services ei.channel) ei.item_id
  else none

/-! ## The event handler (`send`) -/

/-- The user-type filter loop of `send`: the event kind must equal a member
of some configured `|`-delimited group. -/
def msgflag (cfg : Config) (ei : WebhookEventInfo) : Bool :=
  cfg.types.any fun t => (splitOnPipe t).contains ei.event

/-- The named-server filter of `send`: passes when the event names no
server, or the named server is among the configured reachable ones. -/
def server_name_ok (env : Env) (ei : WebhookEventInfo) : Bool :=
  if truthyStr ei.server_name then
    ((env.service_infos none).getD []).contains (ei.server_name.getD "")
  else true

/-- The channel filter of `send`: passes when the event names no channel,
or some reachable server of that type exists. -/
def channel_ok (env : Env) (ei : WebhookEventInfo) : Bool :=
  if truthyStr ei.channel then truthyList (env.service_infos ei.channel)
  else true

/-- `send`, the registered webhook handler: filter, dedup noisy stop
events, run the rescan trigger on `library.new`, compose and post the
notification, and update the dedup set. Returns the performed effects and
the new dedup state. -/
def send (cfg : Config) (env : Env) (st : Dedup) (ev : Option WebhookEventInfo) :
    List Effect × Dedup :=
  if cfg.enabled = false then ([], st)
  else
    match ev with
    | none => ([], st)
    | some ei =>
      if truthyStr (List.lookup ei.event webhook_actions) = false then ([], st)
      else if msgflag cfg ei = false then
        ([Effect.logInfo ("未开启 " ++ ei.event ++ " 类型的消息通知")], st)
      else if truthyList (env.service_infos none) = false then
        ([Effect.logInfo "未开启任一媒体服务器的消息通知"], st)
      else if server_name_ok env ei = false then
        ([Effect.logInfo ("未开启媒体服务器 " ++ pyStr ei.server_name ++ " 的消息通知")], st)
      else if channel_ok env ei = false then
        ([Effect.logInfo ("未开启媒体服务器类型 " ++ pyStr ei.channel ++ " 的消息通知")], st)
      else if ei.event = "playback.stop" ∧ (List.lookup (expiring_key ei) st).isSome then
        ([], add_element st env.now (expiring_key ei))
      else
        let curlEffects :=
          if ei.event = "library.new" then
            Effect.logInfo "检测到新入库事件，准备执行curl命令" :: execute_curl_command env ei
          else []
        let st1 := if ei.event = "playback.stop" then add_element st env.now (expiring_key ei) else st
        let st2 := if ei.event = "playback.start" then remove_element st1 (expiring_key ei) else st1
        (curlEffects ++ imageEffects env ei ++
          [Effect.postMessage (mkTitle ei) (mkContent env ei) (resolveImage env ei).1
            (resolvePlayLink cfg env ei)],
         st2)

/-! ## Association-list lemmas for the dedup set -/

theorem lookup_map_overwrite (k : String) (v : Nat) :
    ∀ d : Dedup, (List.lookup k d).isSome = true →
      List.lookup k (d.map fun kv => if kv.1 = k then (k, v) else kv) = some v
  | [], h => by simp [List.lookup] at h
  | (a, b) :: t, h => by
    by_cases hak : a = k
    · subst hak
      simp [List.lookup_cons]
    · have hb : (k == a) = false := beq_false_of_ne (Ne.symm hak)
      simp only [List.lookup_cons, hb, List.map_cons, if_neg hak] at h ⊢
      simpa [hb] using lookup_map_overwrite k v t h

theorem lookup_append_absent (k : String) (v : Nat) :
    ∀ d : Dedup, List.lookup k d = none →
      List.lookup k (d ++ [(k, v)]) = some v
  | [], _ => by simp [List.lookup_cons]
  | (a, b) :: t, h => by
    by_cases hak : a = k
    · subst hak; simp [List.lookup_cons] at h
    · have hb : (k == a) = false := beq_false_of_ne (Ne.symm hak)
      simp only [List.lookup_cons, hb, List.cons_append] at h ⊢
      exact lookup_append_absent k v t h

theorem lookup_dictInsert_self (d : Dedup) (k : String) (v : Nat) :
    List.lookup k (dictInsert d k v) = some v := by
  by_cases h : (List.lookup k d).isSome = true
  · simp only [dictInsert, h, if_pos]
    exact lookup_map_overwrite k v d h
  · have hn : List.lookup k d = none := by
      cases hh : List.lookup k d
      · rfl
      · simp [hh] at h
    simpa [dictInsert, hn] using lookup_append_absent k v d hn

theorem lookup_add_element_self (d : Dedup) (now : Nat) (k : String) :
    List.lookup k (add_element d now k) = some (now + 600) :=
  lookup_dictInsert_self d k (now + 600)

theorem lookup_remove_element_self (k : String) :
    ∀ d : Dedup, List.lookup k (remove_element d k) = none
  | [] => rfl
  | (a, b) :: t => by
    by_cases hak : a = k
    · subst hak
      simp only [remove_element, List.filter_cons, bne_self_eq_false]
      exact lookup_remove_element_self a t
    · have hb : (k == a) = false := beq_false_of_ne (Ne.symm hak)
      have hb2 : (a != k) = true := by simp [bne, beq_false_of_ne hak]
      simp only [remove_element, List.filter_cons, hb2, if_pos, List.lookup_cons, hb]
      exact lookup_remove_element_self k t

theorem remove_element_absent (k : String) :
    ∀ d : Dedup, List.lookup k d = none → remove_element d k = d
  | [], _ => rfl
  | (a, b) :: t, h => by
    by_cases hak : a = k
    · subst hak; simp [List.lookup_cons] at h
    · have hb : (k == a) = false := beq_false_of_ne (Ne.symm hak)
      have hb2 : (a != k) = true := by simp [bne, beq_false_of_ne hak]
      simp only [List.lookup_cons, hb] at h
      have ih := remove_element_absent k t h
      simp only [remove_element] at ih ⊢
      simp [List.filter_cons, hb2, ih]

/-! ## Unfolding lemmas for `send` -/

/-- Unfolding of `send` on an event that passes every filter and is not a
suppressed duplicate stop: the curl effects (for `library.new`), the image
lookup, and the posted notification, with the dedup updates applied. -/
theorem send_accepted_main (cfg : Config) (env : Env) (st : Dedup) (ei : WebhookEventInfo)
    (h_en : cfg.enabled = true)
    (h_act : truthyStr (List.lookup ei.event webhook_actions) = true)
    (h_flag : msgflag cfg ei = true)
    (h_si : truthyList (env.service_infos none) = true)
    (h_sn : server_name_ok env ei = true)
    (h_ch : channel_ok env ei = true)
    (h_nodup : ¬(ei.event = "playback.stop" ∧ (List.lookup (expiring_key ei) st).isSome = true)) :
    send cfg env st (some ei) =
      ((if ei.event = "library.new" then
          Effect.logInfo "检测到新入库事件，准备执行curl命令" :: execute_curl_command env ei
        else []) ++ imageEffects env ei ++
        [Effect.postMessage (mkTitle ei) (mkContent env ei) (resolveImage env ei).1
          (resolvePlayLink cfg env ei)],
       (if ei.event = "playback.start" then
          remove_element
            (if ei.event = "playback.stop" then add_element st env.now (expiring_key ei) else st)
            (expiring_key ei)
        else
          (if ei.event = "playback.stop" then add_element st env.now (expiring_key ei)
           else st))) := by
  rw [send]
  simp only [h_en, h_act, h_flag, h_si, h_sn, h_ch, if_neg h_nodup]
  simp

/-- Unfolding of `send` on a stop event whose key is already present:
no effects, only the refresh of the key. -/
theorem send_suppressed_stop (cfg : Config) (env : Env) (st : Dedup) (ei : WebhookEventInfo)
    (h_en : cfg.enabled = true)
    (h_act : truthyStr (List.lookup ei.event webhook_actions) = true)
    (h_flag : msgflag cfg ei = true)
    (h_si : truthyList (env.service_infos none) = true)
    (h_sn : server_name_ok env ei = true)
    (h_ch : channel_ok env ei = true)
    (h_ev : ei.event = "playback.stop")
    (h_dup : (List.lookup (expiring_key ei) st).isSome = true) :
    send cfg env st (some ei) = ([], add_element st env.now (expiring_key ei)) := by
  rw [send]
  simp [h_en, h_act, h_flag, h_si, h_sn, h_ch, h_ev, h_dup]
  intro hfalse
  exact absurd hfalse (by decide)

/-! ## Lemmas for the path resolver and the curl effect list -/

/-- The resolver loop is first-match over the table. -/
theorem firstPathMatch_eq_find :
    ∀ (l : List (List String × Int)) (p : String),
      firstPathMatch l p = (l.find? fun e => e.1.any fun pat => pyIn pat p).map Prod.snd
  | [], _ => rfl
  | (pats, v) :: rest, p => by
    by_cases h : (pats.any fun pat => pyIn pat p) = true
    · simp [firstPathMatch, h, List.find?_cons_of_pos]
    · simp [firstPathMatch, h, List.find?_cons_of_neg _ h, firstPathMatch_eq_find rest p]

/-- `curlRequests` distributes over append. -/
theorem curlRequests_append (a b : List Effect) :
    curlRequests (a ++ b) = curlRequests a ++ curlRequests b := by
  simp [curlRequests]

theorem curlRequests_nil : curlRequests [] = [] := rfl

theorem curlRequests_cons_info (m : String) (l : List Effect) :
    curlRequests (Effect.logInfo m :: l) = curlRequests l := rfl

theorem curlRequests_cons_warn (m : String) (l : List Effect) :
    curlRequests (Effect.logWarn m :: l) = curlRequests l := rfl

theorem curlRequests_cons_run (r : CurlRequest) (l : List Effect) :
    curlRequests (Effect.runCurl r :: l) = r :: curlRequests l := rfl

theorem truthyStr_none : truthyStr none = false := rfl

theorem truthyStr_some (s : String) : truthyStr (some s) = (s != "") := rfl

/-- The outcome logs of the curl run contain no curl invocation, whatever
the outcome. -/
theorem curlRequests_curlResultLogs (o : Except CurlError (Int × String × String)) :
    curlRequests (curlResultLogs o) = [] := by
  cases o with
  | ok t =>
    obtain ⟨rc, out, err⟩ := t
    simp only [curlResultLogs]
    split_ifs <;> simp [curlRequests]
  | error e => cases e <;> simp [curlResultLogs, curlRequests]

/-! ## Claim theorems -/

/-- Fixture configuration: plugin enabled, stop notifications selected. -/
def cfgStop : Config :=
  { enabled := true, types := ["playback.stop|media.stop|PlaybackStop"],
    mediaservers := ["E1"], add_play_link := false }

/-- Fixture environment with one reachable server `E1`. -/
def envAt (now : Nat) : Env :=
  { now := now,
    service_infos := fun _ => some ["E1"],
    get_services := fun _ => [],
    get_play_url := fun _ _ => none,
    obtain_specific_image := fun _ => none,
    get_location := fun _ => "",
    local_time_str := "2026-01-01 00:00:00",
    format_percentage := fun _ => "",
    run_curl := fun _ => Except.error CurlError.timeoutExpired }

/-- C4: for every event whose kind is not in the recognized table, `send`
stops silently before any external interaction: no effects at all (no
notification, no curl call, not even a log line) and the dedup set is
returned unchanged. -/
theorem c4_unrecognized_kind_silent (cfg : Config) (env : Env) (st : Dedup)
    (ei : WebhookEventInfo)
    (h : List.lookup ei.event webhook_actions = none) :
    send cfg env st (some ei) = ([], st) := by
  rw [send]
  by_cases he : cfg.enabled = false
  · simp [he]
  · simp [he, h, truthyStr]

/-- C4 witness: a concrete unrecognized kind is dropped silently. -/
theorem c4_unrecognized_kind_silent_witness :
    send cfgStop (envAt 100) [("a-b-c", 700)]
        (some { event := "something.unknown", item_id := some "9" })
      = ([], [("a-b-c", 700)]) :=
  c4_unrecognized_kind_silent cfgStop (envAt 100) [("a-b-c", 700)]
    { event := "something.unknown", item_id := some "9" } (by decide)

/-- C5: the category resolver is first-match-in-order substring containment
over the static ordered table (equal to the spec-modelled `resolveCategory`,
including `none` when nothing matches), it is not prefix-anchored, and it
maps the two paths of the spec to `0` and `11`. -/
theorem c5_path_category_resolution :
    (∀ p, get_variable_one_from_path p = resolveCategory p)
    ∧ get_variable_one_from_path "/media/Movie/Episode/Donghua/foo.mkv" = some 0
    ∧ get_variable_one_from_path "/media/Show/Zongyi/ZongyiUS/bar.strm" = some 11
    ∧ get_variable_one_from_path "/mnt/x/media/Movie/Episode/Donghua/foo.mkv" = some 0
    ∧ get_variable_one_from_path "/data/other/file.mkv" = none := by
  refine ⟨?_, by decide, by decide, by decide, by decide⟩
  intro p
  by_cases h : p = ""
  · subst h
    have : resolveCategory "" = none := by decide
    simp [get_variable_one_from_path, this]
  · simp [get_variable_one_from_path, h, firstPathMatch_eq_find, resolveCategory]

/-- C7: the derived secondary path (variable two) of the rescan trigger is
the parent directory of the item path exactly for `.strm` paths, and the
empty string otherwise. -/
theorem c7_secondary_path_strm (p : String) :
    (strEndsWith p ".strm" = true → variable_two_of p = dirname p)
    ∧ (strEndsWith p ".strm" = false → variable_two_of p = "") := by
  constructor <;> intro h <;> simp [variable_two_of, h]

/-- C7 witness: concrete `.strm` and non-`.strm` paths. -/
theorem c7_secondary_path_strm_witness :
    variable_two_of "/media/Show/Zongyi/ZongyiUS/bar.strm" = "/media/Show/Zongyi/ZongyiUS"
    ∧ variable_two_of "/media/Movie/Episode/Donghua/foo.mkv" = "" := by
  constructor
  · have h := (c7_secondary_path_strm "/media/Show/Zongyi/ZongyiUS/bar.strm").1 (by decide)
    rw [h]
    decide
  · exact (c7_secondary_path_strm "/media/Movie/Episode/Donghua/foo.mkv").2 (by decide)

/-- Fixture stop event for C1 (key `42-Web-alice`). -/
def eiC1 : WebhookEventInfo :=
  { event := "playback.stop", item_id := some "42", item_name := some "Film",
    item_type := some "MOV", channel := some "emby", client := some "Web",
    user_name := some "alice" }

/-- C1: the claim says a stop event whose key is present but expired is
treated as inactive (reads lazily evict expired keys) and the notification
is sent. Evaluating the code at the failing input: key `42-Web-alice` has
stored expiry 4000 and the event arrives at 5000, so the expiry has
elapsed; the lazy purge `__get_elements` would indeed report the key gone,
but `send` never calls it — its membership test ignores expiry, so the
notification is suppressed (no effects at all) and the expired key is
refreshed to 5600. -/
theorem c1_expired_stop_key_still_suppressed :
    (get_elements [("42-Web-alice", 4000)] 5000).2 = []
    ∧ send cfgStop (envAt 5000) [("42-Web-alice", 4000)] (some eiC1)
        = ([], [("42-Web-alice", 5600)]) := by
  decide

/-- Fixture stop event for C2's counterexample (key `7-TV-bob`). -/
def eiC2 : WebhookEventInfo :=
  { event := "playback.stop", item_id := some "7", item_name := some "Show",
    item_type := some "TV", channel := some "emby", client := some "TV",
    user_name := some "bob" }

/-- C2 counterexample: the claim says a stop event whose key is *not
active* gets its notification sent. At time 2000 the key `7-TV-bob` expired
at 1200, so it is not active (the purge would drop it), yet `send` produces
no effects at all: no notification is sent. -/
theorem c2_counterexample_expired_key_not_notified :
    (get_elements [("7-TV-bob", 1200)] 2000).2 = []
    ∧ (send cfgStop (envAt 2000) [("7-TV-bob", 1200)] (some eiC2)).1 = [] := by
  decide

/-- C2 (amended): for an accepted stop event whose dedup key is already
*present* (whether or not its expiry has elapsed), no effect is produced
and the key's expiry is refreshed to now+600; when the key is absent, the
notification is posted and the expiry is set to now+600. After either
outcome the key maps to now+600, so a second accepted stop with the same
key produces no notification while the key remains present — at most one
stop notification per 600-second window per key. -/
theorem c2_stop_dedup_presence_window (cfg : Config) (env : Env) (st : Dedup)
    (ei : WebhookEventInfo)
    (h_en : cfg.enabled = true)
    (h_flag : msgflag cfg ei = true)
    (h_si : truthyList (env.service_infos none) = true)
    (h_sn : server_name_ok env ei = true)
    (h_ch : channel_ok env ei = true)
    (h_ev : ei.event = "playback.stop") :
    ((List.lookup (expiring_key ei) st).isSome = true →
      send cfg env st (some ei) = ([], add_element st env.now (expiring_key ei)))
    ∧ (List.lookup (expiring_key ei) st = none →
      (∃ t c i l, Effect.postMessage t c i l ∈ (send cfg env st (some ei)).1)
      ∧ (send cfg env st (some ei)).2 = add_element st env.now (expiring_key ei))
    ∧ List.lookup (expiring_key ei) (add_element st env.now (expiring_key ei))
        = some (env.now + 600)
    ∧ (∀ env2 : Env,
        truthyList (env2.service_infos none) = true →
        server_name_ok env2 ei = true → channel_ok env2 ei = true →
        (send cfg env2 (add_element st env.now (expiring_key ei)) (some ei)).1 = []) := by
  have h_act : truthyStr (List.lookup ei.event webhook_actions) = true := by
    rw [h_ev]; decide
  refine ⟨?_, ?_, lookup_add_element_self st env.now (expiring_key ei), ?_⟩
  · intro hdup
    exact send_suppressed_stop cfg env st ei h_en h_act h_flag h_si h_sn h_ch h_ev hdup
  · intro habs
    have hnodup :
        ¬(ei.event = "playback.stop" ∧ (List.lookup (expiring_key ei) st).isSome = true) := by
      rintro ⟨-, hd⟩
      rw [habs] at hd
      simp at hd
    have hm := send_accepted_main cfg env st ei h_en h_act h_flag h_si h_sn h_ch hnodup
    rw [hm]
    constructor
    · refine ⟨mkTitle ei, mkContent env ei, (resolveImage env ei).1,
        resolvePlayLink cfg env ei, ?_⟩
      simp
    · simp [h_ev]
  · intro env2 h_si2 h_sn2 h_ch2
    have hdup2 :
        (List.lookup (expiring_key ei) (add_element st env.now (expiring_key ei))).isSome
          = true := by
      rw [lookup_add_element_self]
      rfl
    rw [send_suppressed_stop cfg env2 (add_element st env.now (expiring_key ei)) ei h_en h_act
      h_flag h_si2 h_sn2 h_ch2 h_ev hdup2]

/-- C2 witness: a concrete first stop (absent key) posts a notification and
sets expiry 1600 = 1000+600; the immediate second stop at time 1900 is
silent. -/
theorem c2_stop_dedup_presence_window_witness :
    (send cfgStop (envAt 1000) [] (some eiC2)).2 = add_element [] 1000 "7-TV-bob"
    ∧ (send cfgStop (envAt 1900) (add_element [] 1000 "7-TV-bob") (some eiC2)).1 = [] := by
  have h := c2_stop_dedup_presence_window cfgStop (envAt 1000) [] eiC2 rfl (by decide)
    (by decide) (by decide) (by decide) rfl
  exact ⟨(h.2.1 rfl).2, h.2.2.2 (envAt 1900) (by decide) (by decide) (by decide)⟩

/-- Fixture start event for C3 (key `42-Web-alice`). -/
def eiC3 : WebhookEventInfo :=
  { event := "playback.start", item_id := some "42", item_name := some "Film",
    item_type := some "MOV", channel := some "emby", client := some "Web",
    user_name := some "alice" }

/-- C3: after an accepted `playback.start` event the dedup key is absent,
whatever the prior state; and removing an absent key is a no-op. -/
theorem c3_start_removes_key (cfg : Config) (env : Env) (st : Dedup)
    (ei : WebhookEventInfo)
    (h_en : cfg.enabled = true)
    (h_flag : msgflag cfg ei = true)
    (h_si : truthyList (env.service_infos none) = true)
    (h_sn : server_name_ok env ei = true)
    (h_ch : channel_ok env ei = true)
    (h_ev : ei.event = "playback.start") :
    List.lookup (expiring_key ei) (send cfg env st (some ei)).2 = none
    ∧ (∀ (d : Dedup) (k : String), List.lookup k d = none → remove_element d k = d) := by
  have h_act : truthyStr (List.lookup ei.event webhook_actions) = true := by
    rw [h_ev]; decide
  have hnodup :
      ¬(ei.event = "playback.stop" ∧ (List.lookup (expiring_key ei) st).isSome = true) := by
    rintro ⟨h1, -⟩
    rw [h_ev] at h1
    exact absurd h1 (by decide)
  have hm := send_accepted_main cfg env st ei h_en h_act h_flag h_si h_sn h_ch hnodup
  constructor
  · rw [hm]
    simp [h_ev, lookup_remove_element_self]
  · exact fun d k h => remove_element_absent k d h

/-- C3 witness: a concrete start event deletes the present key, and a
concrete removal of an absent key is the identity. -/
theorem c3_start_removes_key_witness :
    List.lookup "42-Web-alice"
        (send { cfgStop with types := ["playback.start|media.play|PlaybackStart"] }
          (envAt 3000) [("42-Web-alice", 3500)] (some eiC3)).2 = none
    ∧ remove_element [("other", 5)] "42-Web-alice" = [("other", 5)] := by
  have h := c3_start_removes_key
    { cfgStop with types := ["playback.start|media.play|PlaybackStart"] }
    (envAt 3000) [("42-Web-alice", 3500)] eiC3 rfl (by decide) (by decide) (by decide)
    (by decide) rfl
  exact ⟨h.1, h.2 [("other", 5)] "42-Web-alice" (by decide)⟩

/-- C6: in the rescan trigger, item type `MOV` selects the `movies` URL
segment, `TV` and `SHOW` select `tvshows`, and any other item type skips
the curl call entirely with a warning; an accepted `library.new` event
still posts its notification whatever the rescan did. -/
theorem c6_item_type_rescan_mapping (env : Env) (ei : WebhookEventInfo)
    (media_path : String) (v1 : Int)
    (hp : ei.item_path = some media_path)
    (hne : media_path ≠ "")
    (hv1 : get_variable_one_from_path media_path = some v1) :
    (ei.item_type = some "MOV" →
      curlRequests (execute_curl_command env ei)
        = [{ url := "http://localhost:7878/api/movies",
             jsonData := mkJsonData v1 (variable_two_of media_path), apiKey := tmm_api_key }])
    ∧ (ei.item_type = some "TV" ∨ ei.item_type = some "SHOW" →
      curlRequests (execute_curl_command env ei)
        = [{ url := "http://localhost:7878/api/tvshows",
             jsonData := mkJsonData v1 (variable_two_of media_path), apiKey := tmm_api_key }])
    ∧ (ei.item_type ≠ some "MOV" → ei.item_type ≠ some "TV" → ei.item_type ≠ some "SHOW" →
      curlRequests (execute_curl_command env ei) = []
      ∧ Effect.logWarn ("未识别的媒体类型: " ++ pyStr ei.item_type ++ "，跳过curl命令执行")
          ∈ execute_curl_command env ei)
    ∧ (∀ (cfg : Config) (st : Dedup),
        cfg.enabled = true → msgflag cfg ei = true →
        truthyList (env.service_infos none) = true →
        server_name_ok env ei = true → channel_ok env ei = true →
        ei.event = "library.new" →
        Effect.postMessage (mkTitle ei) (mkContent env ei) (resolveImage env ei).1
          (resolvePlayLink cfg env ei) ∈ (send cfg env st (some ei)).1) := by
  refine ⟨?_, ?_, ?_, ?_⟩
  · intro ht
    simp [execute_curl_command, hp, hne, hv1, ht, strmLogOf, curlRequests_append,
      curlRequests_curlResultLogs, curlRequests_cons_info, curlRequests_cons_run,
      curlRequests_nil]
  · rintro (ht | ht) <;>
      simp [execute_curl_command, hp, hne, hv1, ht, strmLogOf, curlRequests_append,
        curlRequests_curlResultLogs, curlRequests_cons_info, curlRequests_cons_run,
        curlRequests_nil]
  · intro h1 h2 h3
    simp [execute_curl_command, hp, hne, hv1, h1, h2, h3, strmLogOf,
      curlRequests_cons_info, curlRequests_cons_warn, curlRequests_nil]
  · intro cfg st h_en h_flag h_si h_sn h_ch h_ev
    have h_act : truthyStr (List.lookup ei.event webhook_actions) = true := by
      rw [h_ev]; decide
    have hnodup :
        ¬(ei.event = "playback.stop" ∧ (List.lookup (expiring_key ei) st).isSome = true) := by
      rintro ⟨h1, -⟩
      rw [h_ev] at h1
      exact absurd h1 (by decide)
    rw [send_accepted_main cfg env st ei h_en h_act h_flag h_si h_sn h_ch hnodup]
    simp

/-- Fixture `library.new` event for the C6 witness (movie under the
`Donghua` category). -/
def eiC6 : WebhookEventInfo :=
  { event := "library.new", item_id := some "11", item_name := some "New",
    item_type := some "MOV",
    item_path := some "/media/Movie/Episode/Donghua/foo.mkv", channel := some "emby" }

/-- C6 witness: a concrete `MOV` item addressed to the `movies` endpoint. -/
theorem c6_item_type_rescan_mapping_witness :
    curlRequests (execute_curl_command (envAt 10) eiC6)
      = [{ url := "http://localhost:7878/api/movies",
           jsonData := mkJsonData 0 "", apiKey := tmm_api_key }] := by
  have h := (c6_item_type_rescan_mapping (envAt 10) eiC6
    "/media/Movie/Episode/Donghua/foo.mkv" 0 rfl (by decide) (by decide)).1 rfl
  rw [h]
  decide

/-- Replace the curl-subprocess oracle of an environment, leaving every
other collaborator unchanged. -/
def withCurl (env : Env) (rc : CurlRequest → Except CurlError (Int × String × String)) : Env :=
  { env with run_curl := rc }

/-- C8: with every other collaborator fixed, for every behaviour of the
curl subprocess — timeout, missing binary, any other raised error, or any
exit status — the handler still posts the notification and leaves the
dedup state untouched; and each caught exception arm produces exactly one
error-log line (caught, logged, non-fatal). -/
theorem c8_rescan_failures_nonfatal (cfg : Config) (env : Env) (st : Dedup)
    (ei : WebhookEventInfo)
    (h_en : cfg.enabled = true)
    (h_flag : msgflag cfg ei = true)
    (h_si : truthyList (env.service_infos none) = true)
    (h_sn : server_name_ok env ei = true)
    (h_ch : channel_ok env ei = true)
    (h_ev : ei.event = "library.new") :
    (∀ rc : CurlRequest → Except CurlError (Int × String × String),
      Effect.postMessage (mkTitle ei) (mkContent (withCurl env rc) ei)
          (resolveImage (withCurl env rc) ei).1 (resolvePlayLink cfg (withCurl env rc) ei)
        ∈ (send cfg (withCurl env rc) st (some ei)).1
      ∧ (send cfg (withCurl env rc) st (some ei)).2 = st)
    ∧ (∀ e : CurlError, ∃ m, curlResultLogs (Except.error e) = [Effect.logError m]) := by
  constructor
  · intro rc
    have h_act : truthyStr (List.lookup ei.event webhook_actions) = true := by
      rw [h_ev]; decide
    have hnodup :
        ¬(ei.event = "playback.stop" ∧ (List.lookup (expiring_key ei) st).isSome = true) := by
      rintro ⟨h1, -⟩
      rw [h_ev] at h1
      exact absurd h1 (by decide)
    have h_si2 : truthyList ((withCurl env rc).service_infos none) = true := h_si
    have h_sn2 : server_name_ok (withCurl env rc) ei = true := h_sn
    have h_ch2 : channel_ok (withCurl env rc) ei = true := h_ch
    have hm := send_accepted_main cfg (withCurl env rc) st ei h_en h_act h_flag h_si2 h_sn2
      h_ch2 hnodup
    rw [hm]
    constructor
    · simp
    · simp [h_ev]
  · intro e
    cases e <;> exact ⟨_, rfl⟩

/-- Fixture config and environment for the C8 witness: a failing curl
subprocess (missing binary). -/
def cfgC8 : Config :=
  { enabled := true, types := ["library.new"], mediaservers := ["E1"],
    add_play_link := false }

/-- The failing curl oracle of the C8 witness. -/
def rcFailC8 : CurlRequest → Except CurlError (Int × String × String) :=
  fun _ => Except.error CurlError.fileNotFound

/-- The C8 witness environment. -/
def envC8 : Env := withCurl (envAt 10) rcFailC8

/-- C8 witness: with the curl binary missing, the concrete `library.new`
event still posts its notification and the dedup set is unchanged. -/
theorem c8_rescan_failures_nonfatal_witness :
    Effect.postMessage (mkTitle eiC6) (mkContent envC8 eiC6) (resolveImage envC8 eiC6).1
        (resolvePlayLink cfgC8 envC8 eiC6) ∈ (send cfgC8 envC8 [] (some eiC6)).1
    ∧ (send cfgC8 envC8 [] (some eiC6)).2 = [] := by
  exact (c8_rescan_failures_nonfatal cfgC8 (envAt 10) [] eiC6 rfl (by decide) (by decide)
    (by decide) (by decide) rfl).1 rcFailC8

/-- Fixture environment for C9: the TMDB backdrop lookup succeeds. -/
def envC9 : Env :=
  { envAt 10 with obtain_specific_image := fun _ => some "https://tmdb.example/backdrop.jpg" }

/-- Fixture event for C9: carries both an event-supplied image url and a
TMDB id. -/
def eiC9 : WebhookEventInfo :=
  { event := "playback.start", item_id := some "5",
    image_url := some "https://event.example/img.jpg", tmdb_id := some 123,
    channel := some "emby" }

/-- C9 counterexample: the claim says the event-supplied image url, when
present, is used. Here the event supplies an image url and also carries a
TMDB id whose backdrop lookup succeeds; the code resolves to the TMDB
backdrop, not the event-supplied url. -/
theorem c9_counterexample_tmdb_overrides_event_image :
    eiC9.image_url = some "https://event.example/img.jpg"
    ∧ (resolveImage envC9 eiC9).1 = some "https://tmdb.example/backdrop.jpg"
    ∧ (resolveImage envC9 eiC9).1 ≠ eiC9.image_url := by
  decide

/-- C9 (amended): the image is resolved in the order (a) the TMDB backdrop
when a TMDB id is present and the lookup returns a truthy image —
overriding any event-supplied url; (b) otherwise the event-supplied url
when truthy; (c) otherwise the static per-server icon, which may be
absent. -/
theorem c9_amended_image_resolution_order (env : Env) (ei : WebhookEventInfo) :
    (resolveImage env ei).1 = resolveImageAmendedSpec env ei := by
  unfold resolveImage resolveImageAmendedSpec
  rcases h : ei.tmdb_id with - | t
  · cases hiu : truthyStr ei.image_url <;> simp [hiu]
  · by_cases h0 : t = 0
    · subst h0
      cases hiu : truthyStr ei.image_url <;> simp [hiu]
    · simp only [h0, if_false, if_neg]
      rcases hs : env.obtain_specific_image
          { mediaid := t, mtype := MediaType.TV, image_type := MediaImageType.Backdrop,
            season := pyTruthyInt ei.season_id, episode := pyTruthyInt ei.episode_id }
        with - | s
      · simp only [hs, truthyStr_none]
        simp
        cases hiu : truthyStr ei.image_url <;> simp [hiu]
      · by_cases hse : s = ""
        · subst hse
          simp only [hs, truthyStr_some]
          simp
          cases hiu : truthyStr ei.image_url <;> simp [hiu]
        · simp [hs, truthyStr_some, hse]

/-- Fixture environment for C10: records that the image lookup result does
not matter for the request's fixed arguments. -/
def envC10 : Env := envAt 20

/-- Fixture movie event with a TMDB id for the C10 witness. -/
def eiC10 : WebhookEventInfo :=
  { event := "playback.stop", item_id := some "8", item_type := some "MOV",
    tmdb_id := some 123 }

/-- C10: whenever the event carries a truthy TMDB id, the metadata image
lookup is issued with media type fixed to `TV` and image type fixed to
`Backdrop`, whatever the event's item type. -/
theorem c10_tmdb_lookup_fixed_tv_backdrop (env : Env) (ei : WebhookEventInfo) (tmdb : Int)
    (h : ei.tmdb_id = some tmdb) (h0 : tmdb ≠ 0) :
    (resolveImage env ei).2
      = some { mediaid := tmdb, mtype := MediaType.TV,
               image_type := MediaImageType.Backdrop,
               season := pyTruthyInt ei.season_id, episode := pyTruthyInt ei.episode_id }
    ∧ Effect.obtainImage
        { mediaid := tmdb, mtype := MediaType.TV, image_type := MediaImageType.Backdrop,
          season := pyTruthyInt ei.season_id, episode := pyTruthyInt ei.episode_id }
        ∈ imageEffects env ei := by
  have h2 : (resolveImage env ei).2
      = some { mediaid := tmdb, mtype := MediaType.TV,
               image_type := MediaImageType.Backdrop,
               season := pyTruthyInt ei.season_id, episode := pyTruthyInt ei.episode_id } := by
    unfold resolveImage
    simp [h, h0]
  exact ⟨h2, by simp [imageEffects, h2]⟩

/-- C10 witness: a concrete movie (`MOV`) event with TMDB id 123 is looked
up as `TV`/`Backdrop`. -/
theorem c10_tmdb_lookup_fixed_tv_backdrop_witness :
    (resolveImage envC10 eiC10).2
      = some { mediaid := 123, mtype := MediaType.TV,
               image_type := MediaImageType.Backdrop, season := none, episode := none }
    ∧ eiC10.item_type = some "MOV" :=
  ⟨(c10_tmdb_lookup_fixed_tv_backdrop envC10 eiC10 123 rfl (by decide)).1, rfl⟩

end MediaServerMsgTest
